import Mathlib

/-!
Verification of the configuration component of the SergeBouchut/blog
repository.

The repository's only source file, `pelicanconf.py`, is a flat set of
module-level configuration assignments for the Pelican static-site
generator.  Those concrete assignments are embedded below as the Lean
definitions `AUTHOR`, `SITENAME`, ..., collected in the configuration
source `pelicanconf`.

The specification additionally describes a `ConfigurationSet` component
with a `load()` operation (failing with `ConfigurationError` on a
malformed required field) and a `get(optionName)` operation (failing with
`UnknownOptionError` on an unrecognized option name).  That component is
not present in the repository's source tree, so it is modelled here from
the specification's words; every definition carrying such a model says so
in its doc comment.
-/

set_option autoImplicit false

namespace Blog

/-- A configuration source: one field per module-level assignment of
`pelicanconf.py`, with the same (Python) names.  Feed-kind options use
`Option String`, where `none` embeds Python's `None` (the disabled
marker) and `some p` a path string. -/
structure ConfigSource where
  AUTHOR : String
  SITENAME : String
  SITEURL : String
  PATH : String
  TIMEZONE : String
  DEFAULT_LANG : String
  FEED_DOMAIN : String
  FEED_ALL_ATOM : Option String
  FEED_ALL_RSS : Option String
  CATEGORY_FEED_ATOM : Option String
  TRANSLATION_FEED_ATOM : Option String
  AUTHOR_FEED_ATOM : Option String
  AUTHOR_FEED_RSS : Option String
  LINKS : List (String × String)
  SOCIAL : List (String × String)
  DEFAULT_PAGINATION : Int
  THEME : String
  PROFILE_IMAGE : String
  BIO_TEXT : String
  DISQUS_SITENAME : String
deriving DecidableEq, Repr

/-- pelicanconf.py line 6: `AUTHOR = u'Serge Bouchut'`. -/
def AUTHOR : String := "Serge Bouchut"

/-- pelicanconf.py line 7: `SITENAME = u'terrarium'`. -/
def SITENAME : String := "terrarium"

/-- pelicanconf.py line 8: `SITEURL = 'https://sergebouchut.github.io/blog'`. -/
def SITEURL : String := "https://sergebouchut.github.io/blog"

/-- pelicanconf.py line 10: `PATH = 'content'`. -/
def PATH : String := "content"

/-- pelicanconf.py line 12: `TIMEZONE = 'Europe/Paris'`. -/
def TIMEZONE : String := "Europe/Paris"

/-- pelicanconf.py line 14: `DEFAULT_LANG = u'fr'`. -/
def DEFAULT_LANG : String := "fr"

/-- pelicanconf.py line 17: `FEED_DOMAIN = SITEURL`. -/
def FEED_DOMAIN : String := SITEURL

/-- pelicanconf.py line 18: `FEED_ALL_ATOM = None`. -/
def FEED_ALL_ATOM : Option String := none

/-- pelicanconf.py line 19: `FEED_ALL_RSS = 'feeds/rss.xml'`. -/
def FEED_ALL_RSS : Option String := some "feeds/rss.xml"

/-- pelicanconf.py line 20: `CATEGORY_FEED_ATOM = None`. -/
def CATEGORY_FEED_ATOM : Option String := none

/-- pelicanconf.py line 21: `TRANSLATION_FEED_ATOM = None`. -/
def TRANSLATION_FEED_ATOM : Option String := none

/-- pelicanconf.py line 22: `AUTHOR_FEED_ATOM = None`. -/
def AUTHOR_FEED_ATOM : Option String := none

/-- pelicanconf.py line 23: `AUTHOR_FEED_RSS = None`. -/
def AUTHOR_FEED_RSS : Option String := none

/-- pelicanconf.py lines 26-30: the `LINKS` tuple (blogroll), in source
order. -/
def LINKS : List (String × String) :=
  [("Pelican", "http://getpelican.com/"),
   ("Python.org", "http://python.org/"),
   ("Jinja2", "http://jinja.pocoo.org/")]

/-- pelicanconf.py lines 33-38: the `SOCIAL` tuple, in source order. -/
def SOCIAL : List (String × String) :=
  [("github", "https://github.com/SergeBouchut/"),
   ("linkedin", "https://www.linkedin.com/in/sergebouchut/"),
   ("email", "serge.bouchut+blog@gmail.com"),
   ("meetup", "https://www.meetup.com/fr-FR/members/190950919/")]

/-- pelicanconf.py line 40: `DEFAULT_PAGINATION = 10`. -/
def DEFAULT_PAGINATION : Int := 10

/-- pelicanconf.py line 45: `THEME = 'pelican-hyde'`. -/
def THEME : String := "pelican-hyde"

/-- pelicanconf.py line 46: `PROFILE_IMAGE = 'profile.png'`. -/
def PROFILE_IMAGE : String := "profile.png"

/-- pelicanconf.py lines 47-49: the `BIO` string (the Python name `BIO`
is not usable verbatim here). -/
def BIO_TEXT : String :=
  "Ingénieur logiciel #python #linux, Lyon. N\u0027hésitez pas à laisser des commentaires pour me compléter, me corriger, me poser des questions ou simplement m\u0027encourager ! :)"

/-- pelicanconf.py line 50: `DISQUS_SITENAME = u'sergebouchut'`. -/
def DISQUS_SITENAME : String := "sergebouchut"

/-- The concrete configuration source of the repository: all module-level
assignments of pelicanconf.py. -/
def pelicanconf : ConfigSource :=
  { AUTHOR := AUTHOR
    SITENAME := SITENAME
    SITEURL := SITEURL
    PATH := PATH
    TIMEZONE := TIMEZONE
    DEFAULT_LANG := DEFAULT_LANG
    FEED_DOMAIN := FEED_DOMAIN
    FEED_ALL_ATOM := FEED_ALL_ATOM
    FEED_ALL_RSS := FEED_ALL_RSS
    CATEGORY_FEED_ATOM := CATEGORY_FEED_ATOM
    TRANSLATION_FEED_ATOM := TRANSLATION_FEED_ATOM
    AUTHOR_FEED_ATOM := AUTHOR_FEED_ATOM
    AUTHOR_FEED_RSS := AUTHOR_FEED_RSS
    LINKS := LINKS
    SOCIAL := SOCIAL
    DEFAULT_PAGINATION := DEFAULT_PAGINATION
    THEME := THEME
    PROFILE_IMAGE := PROFILE_IMAGE
    BIO_TEXT := BIO_TEXT
    DISQUS_SITENAME := DISQUS_SITENAME }

/-- Modelled from the spec: `site_url` "must be a valid absolute URL"
(§3), with `"not-a-url"` as the given non-example.  An absolute URL is
modelled as a string carrying an explicit http or https scheme. -/
def isAbsoluteURL (s : String) : Bool :=
  List.isPrefixOf ("http://".data) s.data || List.isPrefixOf ("https://".data) s.data

/-- Split a character list at its first slash, if any. -/
def splitAtSlash : List Char → Option (List Char × List Char)
  | [] => none
  | c :: cs =>
    if c = '/' then some ([], cs)
    else
      match splitAtSlash cs with
      | none => none
      | some (a, b) => some (c :: a, b)

/-- Modelled from the spec: `timezone` is an "IANA timezone identifier"
that "must be valid" (§3).  Validity is modelled structurally as the
Area/Location shape: a slash with non-empty text on both sides. -/
def isValidTimezone (s : String) : Bool :=
  match splitAtSlash s.data with
  | some (a, b) => !a.isEmpty && !b.isEmpty
  | none => false

/-- Modelled from the spec: a "relative path string" (§3, feed_settings
constraint): non-empty, not rooted at `/`, and not an absolute URL. -/
def isRelativePath (s : String) : Bool :=
  !s.data.isEmpty && !(List.isPrefixOf ("/".data) s.data) && !(isAbsoluteURL s)

/-- Modelled from the spec: a feed-kind value is "either a relative path
string or \x22disabled\x22" (§3); `none` is the disabled marker. -/
def feedToggleOk : Option String → Bool
  | none => true
  | some p => isRelativePath p

/-- The six feed-kind toggle options of the source, in source order
(pelicanconf.py lines 18-23). -/
def feedToggles (s : ConfigSource) : List (Option String) :=
  [s.FEED_ALL_ATOM, s.FEED_ALL_RSS, s.CATEGORY_FEED_ATOM,
   s.TRANSLATION_FEED_ATOM, s.AUTHOR_FEED_ATOM, s.AUTHOR_FEED_RSS]

/-- Modelled from the spec: the error kind raised by `load()` on a
malformed or missing required value (§7); the payload names the offending
field. -/
inductive ConfigurationError where
  | malformed : String → ConfigurationError
deriving DecidableEq, Repr

/-- Modelled from the spec: the error kind raised by `get` on an
unrecognized option name (§7). -/
inductive UnknownOptionError where
  | unknownOption : String → UnknownOptionError
deriving DecidableEq, Repr

/-- Modelled from the spec: the `ConfigurationSet` data model of §3, one
field per row of the table.  `feed_settings` is the mapping from
feed-kind option name to path-or-disabled value; `none` is the disabled
marker. -/
structure ConfigurationSet where
  author : String
  site_name : String
  site_url : String
  content_path : String
  timezone : String
  default_language : String
  feed_settings : List (String × Option String)
  blogroll : List (String × String)
  social_links : List (String × String)
  pagination_size : Int
  theme_name : String
  profile_image_path : String
  bio_text : String
  comments_integration_id : String
deriving DecidableEq, Repr

/-- Modelled from the spec: validity of a configuration source, the
conjunction of the §3 constraints that are statable on the source alone
(author and site_name non-empty, site_url an absolute URL, timezone
valid, pagination_size positive, each feed-kind toggle a relative path or
disabled).  Filesystem constraints (content_path existing at build time,
theme_name naming an installed theme) are out of reach of the source. -/
def ValidSource (s : ConfigSource) : Prop :=
  s.AUTHOR ≠ "" ∧ s.SITENAME ≠ "" ∧ isAbsoluteURL s.SITEURL = true ∧
    isValidTimezone s.TIMEZONE = true ∧ 0 < s.DEFAULT_PAGINATION ∧
    (feedToggles s).all feedToggleOk = true

instance (s : ConfigSource) : Decidable (ValidSource s) := by
  unfold ValidSource; infer_instance

/-- Modelled from the spec: how the source options populate the §3
fields.  The seven feed options (FEED_DOMAIN and the six toggles) form
the `feed_settings` mapping, keyed by their source names in source
order. -/
def mkConfig (s : ConfigSource) : ConfigurationSet :=
  { author := s.AUTHOR
    site_name := s.SITENAME
    site_url := s.SITEURL
    content_path := s.PATH
    timezone := s.TIMEZONE
    default_language := s.DEFAULT_LANG
    feed_settings :=
      [("FEED_DOMAIN", some s.FEED_DOMAIN),
       ("FEED_ALL_ATOM", s.FEED_ALL_ATOM),
       ("FEED_ALL_RSS", s.FEED_ALL_RSS),
       ("CATEGORY_FEED_ATOM", s.CATEGORY_FEED_ATOM),
       ("TRANSLATION_FEED_ATOM", s.TRANSLATION_FEED_ATOM),
       ("AUTHOR_FEED_ATOM", s.AUTHOR_FEED_ATOM),
       ("AUTHOR_FEED_RSS", s.AUTHOR_FEED_RSS)]
    blogroll := s.LINKS
    social_links := s.SOCIAL
    pagination_size := s.DEFAULT_PAGINATION
    theme_name := s.THEME
    profile_image_path := s.PROFILE_IMAGE
    bio_text := s.BIO_TEXT
    comments_integration_id := s.DISQUS_SITENAME }

/-- Modelled from the spec: `load()` "reads the fixed set of option
assignments; fails with `ConfigurationError` if a required field is
absent or malformed (e.g., invalid URL, non-positive pagination size)"
(§4.1).  Absence cannot arise (the source type is total), so load checks
the malformedness constraints of `ValidSource` in field order and
otherwise builds the `ConfigurationSet`. -/
def load (s : ConfigSource) : Except ConfigurationError ConfigurationSet :=
  if s.AUTHOR = "" then .error (.malformed "author")
  else if s.SITENAME = "" then .error (.malformed "site_name")
  else if isAbsoluteURL s.SITEURL ≠ true then .error (.malformed "site_url")
  else if isValidTimezone s.TIMEZONE ≠ true then .error (.malformed "timezone")
  else if s.DEFAULT_PAGINATION ≤ 0 then .error (.malformed "pagination_size")
  else if (feedToggles s).all feedToggleOk ≠ true then .error (.malformed "feed_settings")
  else .ok (mkConfig s)

/-- Modelled from the spec: the value vocabulary of the §3 fields (plain
strings, the pagination integer, the ordered pair lists, the feed
mapping). -/
inductive ConfigValue where
  | str : String → ConfigValue
  | intVal : Int → ConfigValue
  | pairList : List (String × String) → ConfigValue
  | feedMap : List (String × Option String) → ConfigValue
deriving DecidableEq, Repr

/-- The recognized option names: exactly the fields enumerated in §3, in
table order. -/
def recognizedOptions : List String :=
  ["author", "site_name", "site_url", "content_path", "timezone",
   "default_language", "feed_settings", "blogroll", "social_links",
   "pagination_size", "theme_name", "profile_image_path", "bio_text",
   "comments_integration_id"]

/-- The option table of a configuration: each recognized option name of
§3 paired with the value of its field, in table order. -/
def optionTable (c : ConfigurationSet) : List (String × ConfigValue) :=
  [("author", .str c.author),
   ("site_name", .str c.site_name),
   ("site_url", .str c.site_url),
   ("content_path", .str c.content_path),
   ("timezone", .str c.timezone),
   ("default_language", .str c.default_language),
   ("feed_settings", .feedMap c.feed_settings),
   ("blogroll", .pairList c.blogroll),
   ("social_links", .pairList c.social_links),
   ("pagination_size", .intVal c.pagination_size),
   ("theme_name", .str c.theme_name),
   ("profile_image_path", .str c.profile_image_path),
   ("bio_text", .str c.bio_text),
   ("comments_integration_id", .str c.comments_integration_id)]

/-- Modelled from the spec: `get(optionName)` "returns the value or fails
with `UnknownOptionError` if the name is not among the recognized options
enumerated in §3" (§4.2). -/
def get (c : ConfigurationSet) (name : String) :
    Except UnknownOptionError ConfigValue :=
  match List.lookup name (optionTable c) with
  | some v => .ok v
  | none => .error (.unknownOption name)

/-- Modelled from the spec: an operation step after load.  `get` "returns
the value" and the state, being "immutable after load" (§5), is handed on
unchanged. -/
def getOp (c : ConfigurationSet) (name : String) :
    Except UnknownOptionError ConfigValue × ConfigurationSet :=
  (get c name, c)

/-- Run a sequence of get operations, threading the configuration state
through every step; returns the observed results and the final state. -/
def runGets : ConfigurationSet → List String →
    List (Except UnknownOptionError ConfigValue) × ConfigurationSet
  | c, [] => ([], c)
  | c, n :: ns =>
    let step := getOp c n
    let rest := runGets step.2 ns
    (step.1 :: rest.1, rest.2)

/-- The configuration loaded from the repository's concrete source. -/
def pelicanCS : ConfigurationSet := mkConfig pelicanconf

/-- The concrete source with the spec's non-example site URL. -/
def notAURLSource : ConfigSource := { pelicanconf with SITEURL := "not-a-url" }

/-- The concrete source with pagination size 0. -/
def zeroPaginationSource : ConfigSource :=
  { pelicanconf with DEFAULT_PAGINATION := 0 }

/-- The concrete source with pagination size -5. -/
def negPaginationSource : ConfigSource :=
  { pelicanconf with DEFAULT_PAGINATION := -5 }

/-- The module-level option names assigned in pelicanconf.py, in source
order. -/
def sourceOptionNames : List String :=
  ["AUTHOR", "SITENAME", "SITEURL", "PATH", "TIMEZONE", "DEFAULT_LANG",
   "FEED_DOMAIN", "FEED_ALL_ATOM", "FEED_ALL_RSS", "CATEGORY_FEED_ATOM",
   "TRANSLATION_FEED_ATOM", "AUTHOR_FEED_ATOM", "AUTHOR_FEED_RSS",
   "LINKS", "SOCIAL", "DEFAULT_PAGINATION", "THEME", "PROFILE_IMAGE",
   "BIO", "DISQUS_SITENAME"]

/-- Modelled from the spec: which §3 field each source option populates
(§6: "Recognized configuration options: exactly the fields enumerated in
§3"). -/
def sourceFieldOf : String → Option String
  | "AUTHOR" => some "author"
  | "SITENAME" => some "site_name"
  | "SITEURL" => some "site_url"
  | "PATH" => some "content_path"
  | "TIMEZONE" => some "timezone"
  | "DEFAULT_LANG" => some "default_language"
  | "FEED_DOMAIN" => some "feed_settings"
  | "FEED_ALL_ATOM" => some "feed_settings"
  | "FEED_ALL_RSS" => some "feed_settings"
  | "CATEGORY_FEED_ATOM" => some "feed_settings"
  | "TRANSLATION_FEED_ATOM" => some "feed_settings"
  | "AUTHOR_FEED_ATOM" => some "feed_settings"
  | "AUTHOR_FEED_RSS" => some "feed_settings"
  | "LINKS" => some "blogroll"
  | "SOCIAL" => some "social_links"
  | "DEFAULT_PAGINATION" => some "pagination_size"
  | "THEME" => some "theme_name"
  | "PROFILE_IMAGE" => some "profile_image_path"
  | "BIO" => some "bio_text"
  | "DISQUS_SITENAME" => some "comments_integration_id"
  | _ => none

/-- A valid source loads successfully, to exactly the configuration built
by `mkConfig`. -/
theorem load_ok_of_valid (s : ConfigSource) (h : ValidSource s) :
    load s = .ok (mkConfig s) := by
  obtain ⟨h1, h2, h3, h4, h5, h6⟩ := h
  unfold load
  rw [if_neg h1, if_neg h2, if_neg (by simp [h3]), if_neg (by simp [h4]),
    if_neg (by omega), if_neg (by simp [h6])]

/-- A successful load certifies the source valid and pins down the
resulting configuration. -/
theorem valid_of_load_ok (s : ConfigSource) (c : ConfigurationSet)
    (h : load s = .ok c) : ValidSource s ∧ c = mkConfig s := by
  unfold load at h
  repeat' split at h
  any_goals exact Except.noConfusion h
  injection h with hc
  subst hc
  refine ⟨⟨?_, ?_, ?_, ?_, ?_, ?_⟩, rfl⟩ <;> simp_all

/-- An invalid source fails to load, with some `ConfigurationError`. -/
theorem load_err_of_invalid (s : ConfigSource) (h : ¬ ValidSource s) :
    ∃ e, load s = .error e := by
  unfold load
  repeat' split
  any_goals exact ⟨_, rfl⟩
  refine absurd ?_ h
  refine ⟨?_, ?_, ?_, ?_, ?_, ?_⟩ <;> simp_all [not_le]

/-- An association-list lookup over string keys succeeds exactly on the
keys of the list. -/
theorem lookup_isSome_iff {β : Type} (a : String) (l : List (String × β)) :
    (List.lookup a l).isSome = true ↔ a ∈ l.map Prod.fst := by
  induction l with
  | nil => simp [List.lookup]
  | cons kv rest ih =>
    obtain ⟨k, b⟩ := kv
    by_cases h : a = k
    · subst h
      simp [List.lookup]
    · have hb : (a == k) = false := beq_eq_false_iff_ne.mpr h
      simp only [List.lookup, hb, List.map_cons, List.mem_cons]
      rw [ih]
      simp [h]

/-- An association-list lookup over string keys returns `none` exactly
off the keys of the list. -/
theorem lookup_eq_none_iff {β : Type} (a : String) (l : List (String × β)) :
    List.lookup a l = none ↔ a ∉ l.map Prod.fst := by
  rw [← lookup_isSome_iff]
  cases List.lookup a l <;> simp

/-- The keys of the option table are exactly the recognized options. -/
theorem optionTable_keys (c : ConfigurationSet) :
    (optionTable c).map Prod.fst = recognizedOptions := rfl

/-- `get` succeeds exactly on the recognized option names. -/
theorem get_ok_iff_mem (c : ConfigurationSet) (n : String) :
    (∃ v, get c n = .ok v) ↔ n ∈ recognizedOptions := by
  unfold get
  constructor
  · rintro ⟨v, hv⟩
    rw [← optionTable_keys c, ← lookup_isSome_iff]
    cases hl : List.lookup n (optionTable c) with
    | none => rw [hl] at hv; exact Except.noConfusion hv
    | some w => simp
  · intro hm
    rw [← optionTable_keys c, ← lookup_isSome_iff] at hm
    cases hl : List.lookup n (optionTable c) with
    | none => rw [hl] at hm; exact absurd hm (by simp)
    | some w => exact ⟨w, rfl⟩

/-- On an unrecognized name, `get` returns precisely the
`UnknownOptionError` carrying that name. -/
theorem get_unknown_of_not_mem (c : ConfigurationSet) (n : String)
    (h : n ∉ recognizedOptions) : get c n = .error (.unknownOption n) := by
  have hnone : List.lookup n (optionTable c) = none := by
    rw [lookup_eq_none_iff, optionTable_keys c]
    exact h
  unfold get
  rw [hnone]

/-- The repository's concrete source loads successfully to
`pelicanCS`. -/
theorem load_pelicanconf : load pelicanconf = .ok pelicanCS := rfl

/-- C1: for every valid configuration source, load() succeeds and the
produced ConfigurationSet has every constrained field of the §3 data
model satisfying its stated constraint: author and site_name non-empty,
site_url a valid absolute URL, timezone a valid identifier,
pagination_size a positive integer, and the feed-kind toggles each a
relative path or disabled.  The witness instantiates this at the
concrete source of pelicanconf.py. -/
theorem load_valid_succeeds :
    (∀ s : ConfigSource, ValidSource s →
      ∃ c, load s = .ok c ∧ c.author ≠ "" ∧ c.site_name ≠ "" ∧
        isAbsoluteURL c.site_url = true ∧ isValidTimezone c.timezone = true ∧
        0 < c.pagination_size ∧ (feedToggles s).all feedToggleOk = true) ∧
    ValidSource pelicanconf := by
  constructor
  · intro s hv
    obtain ⟨h1, h2, h3, h4, h5, h6⟩ := hv
    exact ⟨mkConfig s, load_ok_of_valid s ⟨h1, h2, h3, h4, h5, h6⟩,
      h1, h2, h3, h4, h5, h6⟩
  · decide

/-- Witness for C1: the concrete source pelicanconf is valid and loads to
a configuration satisfying every stated constraint. -/
theorem load_valid_succeeds_witness :
    ∃ c, load pelicanconf = .ok c ∧ c.author ≠ "" ∧ c.site_name ≠ "" ∧
      isAbsoluteURL c.site_url = true ∧ isValidTimezone c.timezone = true ∧
      0 < c.pagination_size ∧
      (feedToggles pelicanconf).all feedToggleOk = true :=
  load_valid_succeeds.1 pelicanconf (by decide)

/-- C2: load() fails with a ConfigurationError whenever the source's
pagination size is non-positive; when it is positive no pagination
ConfigurationError arises; and the concrete source has
DEFAULT_PAGINATION = 10 and loads successfully. -/
theorem load_rejects_nonpositive_pagination :
    (∀ s : ConfigSource, s.DEFAULT_PAGINATION ≤ 0 → ∃ e, load s = .error e) ∧
    (∀ s : ConfigSource, 0 < s.DEFAULT_PAGINATION →
      load s ≠ .error (.malformed "pagination_size")) ∧
    pelicanconf.DEFAULT_PAGINATION = 10 ∧ load pelicanconf = .ok pelicanCS := by
  refine ⟨?_, ?_, rfl, rfl⟩
  · intro s hs
    apply load_err_of_invalid
    intro hv
    exact absurd hv.2.2.2.2.1 (by omega)
  · intro s hs h
    unfold load at h
    repeat' split at h
    all_goals simp_all
    all_goals omega

/-- Witness for C2: the concrete source with pagination 0, and with
pagination -5, each fails to load. -/
theorem load_rejects_nonpositive_pagination_witness :
    (∃ e, load zeroPaginationSource = .error e) ∧
    (∃ e, load negPaginationSource = .error e) :=
  ⟨load_rejects_nonpositive_pagination.1 zeroPaginationSource (by decide),
   load_rejects_nonpositive_pagination.1 negPaginationSource (by decide)⟩

/-- C3: load() fails with a ConfigurationError whenever the source's site
URL is not a valid absolute URL; the spec's non-example "not-a-url" is
indeed not one; and the concrete source, whose SITEURL is the absolute
URL https://sergebouchut.github.io/blog, loads successfully. -/
theorem load_rejects_invalid_site_url :
    (∀ s : ConfigSource, isAbsoluteURL s.SITEURL = false →
      ∃ e, load s = .error e) ∧
    isAbsoluteURL "not-a-url" = false ∧
    load pelicanconf = .ok pelicanCS ∧
    pelicanCS.site_url = "https://sergebouchut.github.io/blog" ∧
    isAbsoluteURL pelicanCS.site_url = true := by
  refine ⟨?_, rfl, rfl, rfl, rfl⟩
  intro s hs
  apply load_err_of_invalid
  intro hv
  exact absurd hv.2.2.1 (by simp [hs])

/-- Witness for C3: the concrete source with SITEURL replaced by
"not-a-url" fails to load. -/
theorem load_rejects_invalid_site_url_witness :
    isAbsoluteURL notAURLSource.SITEURL = false ∧
    ∃ e, load notAURLSource = .error e :=
  ⟨by decide, load_rejects_invalid_site_url.1 notAURLSource (by decide)⟩

/-- C4: get fails with UnknownOptionError exactly on names outside the
recognized options of §3 — in particular on "nonexistent_option" — and
succeeds on every recognized name. -/
theorem get_unknown_option_fails :
    (∀ (c : ConfigurationSet) (n : String), n ∉ recognizedOptions →
      get c n = .error (.unknownOption n)) ∧
    (∀ (c : ConfigurationSet) (n : String), n ∈ recognizedOptions →
      ∃ v, get c n = .ok v) ∧
    ∀ c : ConfigurationSet,
      get c "nonexistent_option" =
        .error (.unknownOption "nonexistent_option") :=
  ⟨fun c n h => get_unknown_of_not_mem c n h,
   fun c n h => (get_ok_iff_mem c n).mpr h,
   fun c => get_unknown_of_not_mem c "nonexistent_option" (by decide)⟩

/-- Witness for C4: on the loaded concrete configuration, the lookup of
"nonexistent_option" fails with UnknownOptionError and the lookup of
"author" succeeds. -/
theorem get_unknown_option_fails_witness :
    get pelicanCS "nonexistent_option" =
      .error (.unknownOption "nonexistent_option") ∧
    ∃ v, get pelicanCS "author" = .ok v :=
  ⟨get_unknown_option_fails.1 pelicanCS "nonexistent_option" (by decide),
   get_unknown_option_fails.2.1 pelicanCS "author" (by decide)⟩

/-- C5: every successful load preserves the source order of the blogroll
(LINKS) and social_links (SOCIAL) pair sequences, both in the stored
fields and through get. -/
theorem blogroll_social_preserve_order (s : ConfigSource)
    (c : ConfigurationSet) (h : load s = .ok c) :
    c.blogroll = s.LINKS ∧ c.social_links = s.SOCIAL ∧
    get c "blogroll" = .ok (.pairList s.LINKS) ∧
    get c "social_links" = .ok (.pairList s.SOCIAL) := by
  obtain ⟨-, rfl⟩ := valid_of_load_ok s c h
  exact ⟨rfl, rfl, rfl, rfl⟩

/-- Witness for C5: the loaded concrete configuration yields the LINKS
pairs Pelican, Python.org, Jinja2 and the SOCIAL pairs github, linkedin,
email, meetup in exactly that source order. -/
theorem blogroll_social_preserve_order_witness :
    pelicanCS.blogroll =
      [("Pelican", "http://getpelican.com/"),
       ("Python.org", "http://python.org/"),
       ("Jinja2", "http://jinja.pocoo.org/")] ∧
    pelicanCS.social_links =
      [("github", "https://github.com/SergeBouchut/"),
       ("linkedin", "https://www.linkedin.com/in/sergebouchut/"),
       ("email", "serge.bouchut+blog@gmail.com"),
       ("meetup", "https://www.meetup.com/fr-FR/members/190950919/")] := by
  have h := blogroll_social_preserve_order pelicanconf pelicanCS rfl
  exact ⟨h.1, h.2.1⟩

/-- C6: load is deterministic — two successful loads of the same source
agree on every field, hence are equal. -/
theorem load_deterministic (s : ConfigSource) (c₁ c₂ : ConfigurationSet)
    (h₁ : load s = .ok c₁) (h₂ : load s = .ok c₂) :
    c₁.author = c₂.author ∧ c₁.site_name = c₂.site_name ∧
    c₁.site_url = c₂.site_url ∧ c₁.content_path = c₂.content_path ∧
    c₁.timezone = c₂.timezone ∧ c₁.default_language = c₂.default_language ∧
    c₁.feed_settings = c₂.feed_settings ∧ c₁.blogroll = c₂.blogroll ∧
    c₁.social_links = c₂.social_links ∧
    c₁.pagination_size = c₂.pagination_size ∧
    c₁.theme_name = c₂.theme_name ∧
    c₁.profile_image_path = c₂.profile_image_path ∧
    c₁.bio_text = c₂.bio_text ∧
    c₁.comments_integration_id = c₂.comments_integration_id ∧ c₁ = c₂ := by
  injection h₁.symm.trans h₂ with h
  subst h
  exact ⟨rfl, rfl, rfl, rfl, rfl, rfl, rfl, rfl, rfl, rfl, rfl, rfl, rfl,
    rfl, rfl⟩

/-- Witness for C6: instantiating determinism at the concrete source and
its loaded configuration. -/
theorem load_deterministic_witness :
    pelicanCS.author = pelicanCS.author ∧
    pelicanCS.site_name = pelicanCS.site_name ∧
    pelicanCS.site_url = pelicanCS.site_url ∧
    pelicanCS.content_path = pelicanCS.content_path ∧
    pelicanCS.timezone = pelicanCS.timezone ∧
    pelicanCS.default_language = pelicanCS.default_language ∧
    pelicanCS.feed_settings = pelicanCS.feed_settings ∧
    pelicanCS.blogroll = pelicanCS.blogroll ∧
    pelicanCS.social_links = pelicanCS.social_links ∧
    pelicanCS.pagination_size = pelicanCS.pagination_size ∧
    pelicanCS.theme_name = pelicanCS.theme_name ∧
    pelicanCS.profile_image_path = pelicanCS.profile_image_path ∧
    pelicanCS.bio_text = pelicanCS.bio_text ∧
    pelicanCS.comments_integration_id = pelicanCS.comments_integration_id ∧
    pelicanCS = pelicanCS :=
  load_deterministic pelicanconf pelicanCS pelicanCS rfl rfl

/-- C7: after a successful load the configuration is immutable — any
sequence of get operations leaves the state unchanged and every get in
the sequence observes the values of the loaded configuration. -/
theorem config_immutable_after_load (s : ConfigSource)
    (c : ConfigurationSet) (_h : load s = .ok c) (names : List String) :
    (runGets c names).2 = c ∧
    (runGets c names).1 = names.map (get c) := by
  induction names with
  | nil => exact ⟨rfl, rfl⟩
  | cons n ns ih => simp [runGets, getOp, ih.1, ih.2]

/-- Witness for C7: a concrete sequence of gets on the loaded concrete
configuration leaves it unchanged and observes the loaded values. -/
theorem config_immutable_after_load_witness :
    (runGets pelicanCS ["author", "site_url", "nonexistent_option"]).2 =
      pelicanCS ∧
    (runGets pelicanCS ["author", "site_url", "nonexistent_option"]).1 =
      ["author", "site_url", "nonexistent_option"].map (get pelicanCS) :=
  config_immutable_after_load pelicanconf pelicanCS rfl
    ["author", "site_url", "nonexistent_option"]

/-- C8 counterexample: in the successfully loaded concrete configuration,
the feed_settings entry for FEED_DOMAIN holds the absolute site URL,
which is neither a relative path string nor the disabled marker — so not
every value of the feed_settings mapping named by the claim satisfies the
path-or-disabled constraint. -/
theorem feed_value_not_relative_or_disabled_cex :
    load pelicanconf = .ok pelicanCS ∧
    ("FEED_DOMAIN", some "https://sergebouchut.github.io/blog") ∈
      pelicanCS.feed_settings ∧
    isRelativePath "https://sergebouchut.github.io/blog" = false ∧
    feedToggleOk (some "https://sergebouchut.github.io/blog") = false ∧
    some "https://sergebouchut.github.io/blog" ≠ (none : Option String) :=
  ⟨rfl, by decide, by decide, by decide, by decide⟩

/-- C8 amended: in every successfully loaded configuration, each value of
the feed_settings mapping other than the FEED_DOMAIN entry is a relative
path string or the disabled marker, while the FEED_DOMAIN entry holds the
source's feed domain string. -/
theorem feed_values_relative_or_disabled (s : ConfigSource)
    (c : ConfigurationSet) (h : load s = .ok c) :
    (c.feed_settings.all fun kv =>
      kv.1 == "FEED_DOMAIN" || feedToggleOk kv.2) = true ∧
    List.lookup "FEED_DOMAIN" c.feed_settings = some (some s.FEED_DOMAIN) := by
  obtain ⟨hv, rfl⟩ := valid_of_load_ok s c h
  have h6 := hv.2.2.2.2.2
  simp only [feedToggles, List.all_cons, List.all_nil, Bool.and_eq_true,
    Bool.and_true] at h6
  constructor
  · simp [mkConfig, h6]
  · simp [mkConfig, List.lookup]

/-- Witness for C8 amended: instantiated at the loaded concrete
configuration. -/
theorem feed_values_relative_or_disabled_witness :
    (pelicanCS.feed_settings.all fun kv =>
      kv.1 == "FEED_DOMAIN" || feedToggleOk kv.2) = true ∧
    List.lookup "FEED_DOMAIN" pelicanCS.feed_settings =
      some (some pelicanconf.FEED_DOMAIN) :=
  feed_values_relative_or_disabled pelicanconf pelicanCS rfl

/-- C9: the recognized options are exactly the fourteen fields enumerated
in §3 — get succeeds precisely on them — and every option assigned in
pelicanconf.py populates one of those fields. -/
theorem recognized_options_exact :
    recognizedOptions =
      ["author", "site_name", "site_url", "content_path", "timezone",
       "default_language", "feed_settings", "blogroll", "social_links",
       "pagination_size", "theme_name", "profile_image_path", "bio_text",
       "comments_integration_id"] ∧
    (∀ (c : ConfigurationSet) (n : String),
      (∃ v, get c n = .ok v) ↔ n ∈ recognizedOptions) ∧
    (sourceOptionNames.all fun n =>
      match sourceFieldOf n with
      | some f => recognizedOptions.contains f
      | none => false) = true :=
  ⟨rfl, fun c n => get_ok_iff_mem c n, by decide⟩

/-- Witness for C9: on the loaded concrete configuration, get succeeds on
the recognized name "author". -/
theorem recognized_options_exact_witness :
    ∃ v, get pelicanCS "author" = .ok v :=
  (recognized_options_exact.2.1 pelicanCS "author").mpr (by decide)

/-- C10: whenever a source whose feed domain equals its site URL — as in
pelicanconf.py, where FEED_DOMAIN = SITEURL — loads successfully, the
FEED_DOMAIN entry of feed_settings holds exactly the loaded site_url. -/
theorem feed_domain_equals_site_url (s : ConfigSource)
    (c : ConfigurationSet) (h : load s = .ok c)
    (hd : s.FEED_DOMAIN = s.SITEURL) :
    List.lookup "FEED_DOMAIN" c.feed_settings = some (some c.site_url) ∧
    c.site_url = s.SITEURL := by
  obtain ⟨-, rfl⟩ := valid_of_load_ok s c h
  exact ⟨by simp [mkConfig, List.lookup, hd], rfl⟩

/-- Witness for C10: in the loaded concrete configuration the FEED_DOMAIN
entry is exactly the site URL https://sergebouchut.github.io/blog. -/
theorem feed_domain_equals_site_url_witness :
    List.lookup "FEED_DOMAIN" pelicanCS.feed_settings =
      some (some pelicanCS.site_url) ∧
    pelicanCS.site_url = "https://sergebouchut.github.io/blog" :=
  feed_domain_equals_site_url pelicanconf pelicanCS rfl rfl

end Blog
